import Mathlib

/-
Verification of the RAG chatbot services (FastAPI application):
a shallow embedding of the chunking, retrieval-filtering, context assembly
and ingestion error handling code, together with theorems about it.

Sources embedded:
 - app/utils/text_processing.py  (split_into_chunks)
 - app/routes/chat.py            (chat endpoint: workspace filter, context assembly)
 - app/routes/process_chunks.py  (process_chunks, background_process_chunks, upload_file)
 - app/routes/embeddings.py      (search_embeddings endpoint)

Modelling conventions: Python strings handled character-by-character by the
chunker are List Char (abbrev Str); strings that are only constructed or
compared are Lean String; float similarity scores are modelled as rationals
(only comparisons are performed on them in the embedded code, never float
arithmetic); external collaborators (OpenAI embedding/generation, docling,
the storage client, row insertion) are explicit function parameters; a
Python function that can raise returns Except HTTPException.
-/

namespace HarperChat

/-! ## Chunker: app/utils/text_processing.py, split_into_chunks -/

abbrev Str := List Char

/-- Python str.split(sep): splits on every separator occurrence, keeping
empty pieces; the empty string yields one empty piece. -/
def pySplit (sep : Char) : Str → List Str
  | [] => [[]]
  | c :: rest =>
    match pySplit sep rest with
    | [] => [[]]
    | piece :: pieces =>
      if c = sep then [] :: piece :: pieces else (c :: piece) :: pieces

def isPySpace (c : Char) : Bool := c.isWhitespace

/-- Python str.strip(): drop leading and trailing whitespace. -/
def pyStrip (s : Str) : Str :=
  ((s.dropWhile isPySpace).reverse.dropWhile isPySpace).reverse

/-- One element of the list returned by split_into_chunks: the Python dict
with keys "text" and "metadata" (the metadata dict is always empty). -/
structure PyChunk where
  text : Str
  metadata : List (Str × Str)
deriving DecidableEq

/-- The sentence loop of split_into_chunks: accumulate sentences into
current_chunk, flushing (stripped) whenever the next sentence would push
the buffer past chunk_size; the terminator is re-appended after each
accumulated sentence; a trailing non-empty buffer is flushed at the end. -/
def chunkLoop (chunk_size : Nat) : List Str → Str → List PyChunk → List PyChunk
  | [], current_chunk, chunks =>
      if current_chunk ≠ [] then chunks ++ [⟨pyStrip current_chunk, []⟩] else chunks
  | sentence :: rest, current_chunk, chunks =>
      if current_chunk.length + sentence.length > chunk_size then
        chunkLoop chunk_size rest sentence (chunks ++ [⟨pyStrip current_chunk, []⟩])
      else
        chunkLoop chunk_size rest (current_chunk ++ sentence ++ ['.']) chunks

/-- split_into_chunks(text, chunk_size=1000): split on the sentence
terminator and re-accumulate into soft-bounded chunks. The try/except in
the source is dead for this body (no statement raises), so the model is
the try branch. -/
def split_into_chunks (text : Str) (chunk_size : Nat := 1000) : List PyChunk :=
  chunkLoop chunk_size (pySplit '.' text) [] []

/-! ## Shared data model: Supabase rows and the stores the routes read -/

structure MediaRow where
  id : String
  name : String
  media_type : String
  owner_id : String
deriving DecidableEq

/-- One row of the media_workspace_mapping table. -/
structure MWMRow where
  media_id : String
  workspace_id : String
deriving DecidableEq

/-- One row of the chunks table; the embedding column (a JSON-encoded
float vector in the store) is modelled as the vector itself. -/
structure ChunkRow where
  id : String
  chunk_text : String
  media_id : String
  page_number : Option Int
  embedding : List ℚ
deriving DecidableEq

/-- The external Supabase state visible to the embedded routes: the
storage bucket (path to file content) and the three tables. -/
structure Database where
  storage : List (String × String)
  media : List MediaRow
  media_workspace_mapping : List MWMRow
  chunks : List ChunkRow

/-! ## Stable descending sort: Python list.sort(key=..., reverse=True)

Python sorts are stable; a stable sort by one key is uniquely determined,
so this insertion sort computes exactly the list produced by the source. -/

def insertDesc {α : Type} (key : α → ℚ) (c : α) : List α → List α
  | [] => [c]
  | d :: rest => if key c < key d then d :: insertDesc key c rest else c :: d :: rest

def pySortByDesc {α : Type} (key : α → ℚ) : List α → List α
  | [] => []
  | c :: rest => insertDesc key c (pySortByDesc key rest)

/-! ## Chat endpoint: app/routes/chat.py

Modelled after the authentication gate (the claims concern authenticated
queries); the query embedding and the match_chunks RPC are external, so the
vector search result is a parameter. Every path of the route performs
exactly one generation call; the model returns the prompts of that call
together with the context_sources list of the response. -/

structure ChatRequest where
  query : String
  workspace_id : String
  user_id : Option String := none
  max_context_chunks : Option Nat := some 10
deriving DecidableEq

/-- A row returned by the match_chunks RPC, as read by the route; the
nested media name may be absent (the route then uses "Unknown"). -/
structure Candidate where
  id : String
  media_id : String
  chunk_text : String
  similarity : ℚ
  media_name : Option String
deriving DecidableEq

structure MediaContext where
  media_id : String
  media_name : String
  chunk_id : String
  chunk_text : String
  similarity : ℚ
deriving DecidableEq

/-- The two prompts of the single chat.completions.create call a chat
request ends in. -/
structure GenRequest where
  system : String
  user : String
deriving DecidableEq

def fallback_system_prompt : String := "You are a helpful assistant."

/-- The grounded system prompt of chat.py (triple-quoted in the source,
with its interior newlines and indentation). -/
def system_prompt : String :=
  "You are a helpful assistant that answers questions based on the provided context.\n        If the context doesn\x27t contain relevant information to answer the question, state that you don\x27t have enough information.\n        Cite the source of your information when possible. Try to use as much information as possible to answer the question. You can use knowledge \n        outside of the context if needed. The context is a collection of documents that are related to the question.\n        "

def mediaNameOf (c : Candidate) : String := c.media_name.getD ("Unknown")

/-- One rendered context block: "Context from {media_name}:\n{chunk_text}". -/
def blockOf (c : Candidate) : String :=
  "\n\nContext from " ++ mediaNameOf c ++ ":\n" ++ c.chunk_text ++ "\n"

/-- The context string accumulated over the top chunks (the for loop
starts from the empty string and appends one block per chunk). -/
def contextOf (top_chunks : List Candidate) : String :=
  String.join (top_chunks.map blockOf)

/-- The MediaContext appended to context_sources for one included chunk. -/
def sourceOf (c : Candidate) : MediaContext :=
  ⟨c.media_id, mediaNameOf c, c.id, c.chunk_text, c.similarity⟩

/-- The user prompt of the grounded generation call. -/
def user_prompt_of (context query : String) : String :=
  "Context information:\n" ++ context ++ "\n\nQuestion: " ++ query ++
    "\n\nPlease provide a helpful response based on the context."

/-- workspace_media_ids: the media_id column of the mapping rows whose
workspace_id equals the requested workspace. -/
def workspace_media_ids_in (db : Database) (workspace_id : String) : List String :=
  (db.media_workspace_mapping.filter (fun r => r.workspace_id == workspace_id)).map MWMRow.media_id

/-- The workspace filtering step of chat.py: keep the candidates whose
media_id is in workspace_media_ids, then re-sort by descending similarity. -/
def workspaceFilter (workspace_media_ids : List String) (cands : List Candidate) :
    List Candidate :=
  pySortByDesc Candidate.similarity (cands.filter (fun r => workspace_media_ids.contains r.media_id))

/-- top_chunks: the first min(10, len(filtered_results)) filtered results.
The literal 10 is what the source uses; request.max_context_chunks is
never read. -/
def top_chunks_of (db : Database) (vsr : List Candidate) (request : ChatRequest) :
    List Candidate :=
  (workspaceFilter (workspace_media_ids_in db request.workspace_id) vsr).take
    (min 10 (workspaceFilter (workspace_media_ids_in db request.workspace_id) vsr).length)

/-- The chat route after embedding and vector search: the empty-search
fallback, the empty-workspace fallback, and otherwise the grounded call
over the top chunks. Returns the generation prompts and context_sources. -/
def chat (db : Database) (vector_search_result : List Candidate) (request : ChatRequest) :
    GenRequest × List MediaContext :=
  if vector_search_result = [] then
    (⟨fallback_system_prompt, request.query⟩, [])
  else if workspace_media_ids_in db request.workspace_id = [] then
    (⟨fallback_system_prompt, request.query⟩, [])
  else
    (⟨system_prompt,
      user_prompt_of (contextOf (top_chunks_of db vector_search_result request)) request.query⟩,
     (top_chunks_of db vector_search_result request).map sourceOf)

/-! ## Ingestion: app/routes/process_chunks.py -/

structure ProcessChunkRequest where
  fileName : String
deriving DecidableEq

structure HTTPException where
  status_code : Nat
  detail : String
deriving DecidableEq

/-- str(e) for a FastAPI HTTPException: "{status_code}: {detail}". -/
def str_of_http_exception (e : HTTPException) : String :=
  toString e.status_code ++ ": " ++ e.detail

/-- The dict returned by process_document_with_docling: on failure it
carries an "error" key (and empty text), on success only the text. -/
structure DoclingResult where
  error : Option String
  text : String

/-- The row inserted into the chunks table for one chunk. -/
structure ChunkInsert where
  chunk_text : Str
  media_id : String
  page_number : Option Int
  embedding : List ℚ

structure ChunkResult where
  chunkId : String
deriving DecidableEq

structure ProcessChunkResponse where
  success : Bool
  chunks : Nat
  results : List ChunkResult
deriving DecidableEq

/-- The external collaborators of the ingestion route: document
conversion, the embedding service, and row insertion (returning the new
row id, or nothing when the insert returns no data). -/
structure Collab where
  docling : String → DoclingResult
  create_embedding : Str → List ℚ
  insert_chunk : ChunkInsert → Option String

/-- os.path.basename for the forward-slash paths used by the route. -/
def basename (s : String) : String :=
  String.mk ((s.data.reverse.takeWhile (fun c => c ≠ '/')).reverse)

/-- Models str(e) of the exception the storage client raises for a missing
object; the exact text comes from the external client. -/
def storage_error_message : String := "object not found"

/-- The per-chunk loop of process_chunks: embed the chunk text, insert the
row, raise HTTP 500 on an insert that returns no data. -/
def store_chunks_loop (collab : Collab) (media_id : String) :
    List PyChunk → Except HTTPException (List ChunkResult)
  | [] => .ok []
  | chunk :: rest =>
    match collab.insert_chunk ⟨chunk.text, media_id, none, collab.create_embedding chunk.text⟩ with
    | none => .error ⟨500, "Failed to store chunk"⟩
    | some chunk_id =>
      match store_chunks_loop collab media_id rest with
      | .error e => .error e
      | .ok results => .ok (⟨chunk_id⟩ :: results)

/-- The try-block body of process_chunks: validation, storage download,
media lookup, docling conversion, chunking, and the per-chunk store loop,
with the HTTP status each failure is raised with in the source. -/
def process_chunks_body (collab : Collab) (db : Database) (request : ProcessChunkRequest) :
    Except HTTPException ProcessChunkResponse :=
  if request.fileName = "" then
    .error ⟨400, "File name is required"⟩
  else
    match db.storage.lookup request.fileName with
    | none => .error ⟨404, "Failed to download file: " ++ storage_error_message⟩
    | some file_result =>
      if file_result = "" then
        .error ⟨404, "File not found in storage"⟩
      else
        match db.media.filter (fun m => m.name == basename request.fileName) with
        | [] => .error ⟨404, "Media record not found"⟩
        | media_data :: _ =>
          match (collab.docling file_result).error with
          | some err => .error ⟨500, err⟩
          | none =>
            match store_chunks_loop collab media_data.id
                (split_into_chunks (collab.docling file_result).text.data 1000) with
            | .error e => .error e
            | .ok results => .ok ⟨true, results.length, results⟩

/-- The process_chunks route: its body wrapped in the catch-all
"except Exception as e: raise HTTPException(500, str(e))". FastAPI
HTTPException subclasses Exception, so every raise inside the body,
including the deliberate 400 and 404 raises, is converted to status 500
with the original exception stringified into the detail. -/
def process_chunks (collab : Collab) (db : Database) (request : ProcessChunkRequest) :
    Except HTTPException ProcessChunkResponse :=
  match process_chunks_body collab db request with
  | .ok r => .ok r
  | .error e => .error ⟨500, str_of_http_exception e⟩

/-- The background task registered by upload_file: the module-level
background_process_chunks of app/routes/process_chunks.py. It has no
try/except, so whatever process_chunks raises propagates to its caller
(the background task runner). -/
def background_process_chunks (collab : Collab) (db : Database) (file_name : String) :
    Except HTTPException Unit :=
  match process_chunks collab db ⟨file_name⟩ with
  | .ok _ => .ok ()
  | .error e => .error e

/-- The other background_process_chunks, in app/utils/text_processing.py:
its body is wrapped in try/except Exception, which prints the error and
returns ("background task should fail gracefully"). This variant is not
the one upload_file registers. -/
def background_process_chunks_graceful (collab : Collab) (db : Database) (file_name : String) :
    Except HTTPException Unit :=
  match process_chunks collab db ⟨file_name⟩ with
  | .ok _ => .ok ()
  | .error _ => .ok ()

/-! ## Ad hoc search endpoint: app/routes/embeddings.py

The query embedding comes from the external embedding service and the
cosine similarity is computed with numpy floats; both are modelled as
parameters (the embedded claims do not depend on their values). -/

structure SearchQuery where
  query : String
  limit : Option Nat := some 5
  similarity_threshold : ℚ := 35 / 100
deriving DecidableEq

structure SearchResult where
  chunk_id : String
  chunk_text : String
  similarity : ℚ
  media_id : String
  page_number : Option Int
deriving DecidableEq

/-- Python slicing results[:limit]; a missing limit takes the whole list. -/
def pyTakeOpt {α : Type} (l : List α) : Option Nat → List α
  | none => l
  | some n => l.take n

/-- The search_embeddings route after the query embedding call: read every
row of the chunks table, score each against the query embedding, keep
scores at or above the threshold, sort descending, and apply the limit. -/
def search_embeddings (sim : List ℚ → List ℚ → ℚ) (query_embedding : List ℚ)
    (db : Database) (query : SearchQuery) : List SearchResult :=
  if db.chunks = [] then []
  else
    pyTakeOpt
      (pySortByDesc SearchResult.similarity
        (db.chunks.filterMap (fun chunk =>
          if query.similarity_threshold ≤ sim query_embedding chunk.embedding then
            some ⟨chunk.id, chunk.chunk_text, sim query_embedding chunk.embedding,
                  chunk.media_id, chunk.page_number⟩
          else none)))
      query.limit

/-! ## Derived notions used to state the chunker properties -/

/-- Characters that are neither the sentence terminator nor whitespace:
the content the chunker is expected to preserve. -/
def keepChar (c : Char) : Bool := !(c == '.' || isPySpace c)

/-- Delete terminator and whitespace characters. -/
def cleanse (s : Str) : Str := s.filter keepChar

/-- The cleansed concatenation of the texts of a chunk list. -/
def cleanseChunks (chunks : List PyChunk) : Str :=
  (chunks.map (fun c => cleanse c.text)).flatten

end HarperChat

namespace HarperChat

/-! ## Helper lemmas -/

theorem pyStrip_length_le (s : Str) : (pyStrip s).length ≤ s.length := by
  unfold pyStrip
  rw [List.length_reverse]
  refine le_trans (List.Sublist.length_le (List.dropWhile_sublist _)) ?_
  rw [List.length_reverse]
  exact List.Sublist.length_le (List.dropWhile_sublist _)

theorem filter_dropWhile_of (p q : Char → Bool) (h : ∀ c, q c = true → p c = false) :
    ∀ l : Str, (l.dropWhile q).filter p = l.filter p := by
  intro l
  induction l with
  | nil => rfl
  | cons c l ih =>
    rw [List.dropWhile_cons]
    by_cases hq : q c
    · rw [if_pos hq, ih, List.filter_cons, if_neg (by simp [h c hq])]
    · rw [if_neg hq]

theorem cleanse_pyStrip (s : Str) : cleanse (pyStrip s) = cleanse s := by
  have h : ∀ c, isPySpace c = true → keepChar c = false := by
    intro c hc
    simp [keepChar, hc]
  unfold cleanse pyStrip
  rw [List.filter_reverse, filter_dropWhile_of _ _ h, List.filter_reverse,
    List.reverse_reverse, filter_dropWhile_of _ _ h]

theorem cleanse_append (a b : Str) : cleanse (a ++ b) = cleanse a ++ cleanse b :=
  List.filter_append a b

theorem cleanseChunks_append (a b : List PyChunk) :
    cleanseChunks (a ++ b) = cleanseChunks a ++ cleanseChunks b := by
  simp [cleanseChunks]

theorem chunkLoop_cleanse (L : Nat) :
    ∀ (ss : List Str) (current : Str) (acc : List PyChunk),
      cleanseChunks (chunkLoop L ss current acc) =
        cleanseChunks acc ++ cleanse current ++ (ss.map cleanse).flatten := by
  intro ss
  induction ss with
  | nil =>
    intro current acc
    by_cases h : current = []
    · subst h
      simp [chunkLoop, cleanse]
    · simp only [chunkLoop, if_pos h, cleanseChunks_append]
      simp [cleanseChunks, cleanse_pyStrip]
  | cons t rest ih =>
    intro current acc
    by_cases h : current.length + t.length > L
    · simp only [chunkLoop, if_pos h, ih, cleanseChunks_append]
      simp [cleanseChunks, cleanse_pyStrip, List.append_assoc]
    · simp only [chunkLoop, if_neg h, ih]
      simp [cleanse_append, cleanse, keepChar, List.append_assoc]

theorem pySplit_ne_nil (sep : Char) (cs : Str) : pySplit sep cs ≠ [] := by
  cases cs with
  | nil => simp [pySplit]
  | cons c rest =>
    rw [pySplit]
    cases pySplit sep rest with
    | nil => simp
    | cons piece pieces =>
      by_cases h : c = sep <;> simp [h]

theorem flatten_pySplit (sep : Char) :
    ∀ cs : Str, (pySplit sep cs).flatten = cs.filter (fun c => !(c == sep)) := by
  intro cs
  induction cs with
  | nil => rfl
  | cons c rest ih =>
    rw [pySplit]
    cases hp : pySplit sep rest with
    | nil => exact absurd hp (pySplit_ne_nil sep rest)
    | cons piece pieces =>
      rw [hp] at ih
      by_cases hc : c = sep
      · subst hc
        simp [ih]
      · simp only [if_neg hc, List.flatten_cons, List.filter_cons]
        rw [if_pos (by simp [hc])]
        simpa using ih

theorem flatten_map_cleanse (l : List Str) : (l.map cleanse).flatten = cleanse l.flatten := by
  induction l with
  | nil => rfl
  | cons s rest ih =>
    simp [cleanse_append, ih]

theorem cleanse_filter_dot (cs : Str) :
    cleanse (cs.filter (fun c => !(c == '.'))) = cleanse cs := by
  unfold cleanse
  rw [List.filter_filter]
  congr 1
  funext a
  by_cases h : a == '.'
  · simp [keepChar, h]
  · simp [keepChar, h]

/-- Lifts the invariant on the running buffer to the chunk flushed from it. -/
theorem flushed_chunk_ok (L : Nat) (ss0 : List Str) (current : Str)
    (hcur : current.length ≤ L + 1 ∨ ∃ s ∈ ss0, current = s ∧ L < s.length) :
    (⟨pyStrip current, []⟩ : PyChunk).text.length ≤ L + 1 ∨
      ∃ s ∈ ss0, (⟨pyStrip current, []⟩ : PyChunk).text = pyStrip s ∧ L < s.length := by
  rcases hcur with h | ⟨s, hs, he, hlen⟩
  · exact Or.inl (le_trans (pyStrip_length_le current) h)
  · exact Or.inr ⟨s, hs, by rw [he], hlen⟩

theorem chunkLoop_soft_limit (L : Nat) (ss0 : List Str) :
    ∀ (ss : List Str) (current : Str) (acc : List PyChunk),
      (∀ t ∈ ss, t ∈ ss0) →
      (current.length ≤ L + 1 ∨ ∃ s ∈ ss0, current = s ∧ L < s.length) →
      (∀ c ∈ acc, c.text.length ≤ L + 1 ∨ ∃ s ∈ ss0, c.text = pyStrip s ∧ L < s.length) →
      ∀ c ∈ chunkLoop L ss current acc,
        c.text.length ≤ L + 1 ∨ ∃ s ∈ ss0, c.text = pyStrip s ∧ L < s.length := by
  intro ss
  induction ss with
  | nil =>
    intro current acc _ hcur hacc c hc
    rw [chunkLoop] at hc
    by_cases h : current = []
    · rw [if_neg (by simp [h])] at hc
      exact hacc c hc
    · rw [if_pos h] at hc
      rcases List.mem_append.mp hc with h1 | h1
      · exact hacc c h1
      · have he : c = ⟨pyStrip current, []⟩ := by simpa using h1
        subst he
        exact flushed_chunk_ok L ss0 current hcur
  | cons t rest ih =>
    intro current acc hss hcur hacc c hc
    rw [chunkLoop] at hc
    by_cases h : current.length + t.length > L
    · rw [if_pos h] at hc
      refine ih t (acc ++ [⟨pyStrip current, []⟩])
        (fun x hx => hss x (List.mem_cons_of_mem t hx)) ?_ ?_ c hc
      · by_cases hlen : t.length ≤ L + 1
        · exact Or.inl hlen
        · exact Or.inr ⟨t, hss t (List.mem_cons_self t rest), rfl, by omega⟩
      · intro x hx
        rcases List.mem_append.mp hx with h1 | h1
        · exact hacc x h1
        · have he : x = ⟨pyStrip current, []⟩ := by simpa using h1
          subst he
          exact flushed_chunk_ok L ss0 current hcur
    · rw [if_neg h] at hc
      refine ih (current ++ t ++ ['.']) acc
        (fun x hx => hss x (List.mem_cons_of_mem t hx)) ?_ hacc c hc
      left
      simp only [List.length_append, List.length_cons, List.length_nil]
      omega

theorem pySortByDesc_sorted_eq_self {α : Type} (key : α → ℚ) :
    ∀ l : List α, l.Pairwise (fun a b => key b ≤ key a) → pySortByDesc key l = l := by
  intro l
  induction l with
  | nil => intro _; rfl
  | cons c rest ih =>
    intro h
    rcases List.pairwise_cons.mp h with ⟨hhead, htail⟩
    rw [pySortByDesc, ih htail]
    cases rest with
    | nil => rfl
    | cons d rest2 =>
      rw [insertDesc, if_neg (not_lt.mpr (hhead d (List.mem_cons_self d rest2)))]

/-! ## Claim theorems -/

/-- Claim C4, amended (corrected): for the empty input text and any chunk
size, split_into_chunks returns exactly one chunk and does not raise, but
the text of that chunk is the single terminator character ".", not the
empty string: the loop re-appends the terminator to the single empty
sentence before the final flush. -/
theorem C4_empty_input_single_dot_chunk (chunk_size : Nat) :
    split_into_chunks [] chunk_size = [⟨['.'], []⟩] := by
  show chunkLoop chunk_size [[]] [] [] = [⟨['.'], []⟩]
  rw [chunkLoop, if_neg (by simp), chunkLoop]
  rfl

/-- Claim C4 counterexample: at the empty input and the default chunk size
1000, the single returned chunk holds "." and not the empty string, so the
claim as stated is false. -/
theorem C4_counterexample :
    (split_into_chunks [] 1000).map PyChunk.text = [['.']] ∧
    ¬ ((split_into_chunks [] 1000).map PyChunk.text = [[]]) := by
  constructor <;> decide

/-- Claim C5, amended (corrected): chunks can be empty after trimming even
for non-empty input (the buffer is flushed unconditionally on overflow,
also while still empty), and the terminator of a sentence that starts a
new buffer is dropped, so adjacent sentences can merge across a chunk
boundary; what does hold is content preservation modulo terminators and
whitespace: concatenating the texts of all emitted chunks and deleting
terminator and whitespace characters yields exactly the input text with
terminator and whitespace characters deleted. -/
theorem C5_chunk_content_preserved (text : Str) (chunk_size : Nat) :
    cleanseChunks (split_into_chunks text chunk_size) = cleanse text := by
  show cleanseChunks (chunkLoop chunk_size (pySplit '.' text) [] []) = cleanse text
  rw [chunkLoop_cleanse]
  show cleanse [] ++ ((pySplit '.' text).map cleanse).flatten = cleanse text
  rw [flatten_map_cleanse, flatten_pySplit, cleanse_filter_dot]
  rfl

/-- Claim C5 counterexample: on input "aaaa.bb.c." with chunk size 3 the
chunker emits an empty first chunk (the input is non-empty), and the
sentence "bb" of the input occurs in no emitted chunk, its terminator
having been dropped and its text merged with the following sentence into
"bbc." — so both the non-emptiness part and the
sentence-sequence-reconstruction part of the claim are false. -/
theorem C5_counterexample :
    "aaaa.bb.c.".data ≠ [] ∧
    (split_into_chunks ("aaaa.bb.c.".data) 3).map PyChunk.text =
      [[], "aaaa".data, "bbc.".data] ∧
    (((split_into_chunks ("aaaa.bb.c.".data) 3).map PyChunk.text).map
        (pySplit '.')).flatten.contains ("bb".data) = false ∧
    (pySplit '.' ("aaaa.bb.c.".data)).contains ("bb".data) = true := by
  refine ⟨by decide, by decide, by decide, by decide⟩

/-- Claim C6, amended (corrected): the size check compares the buffer plus
the bare next sentence but not the re-appended terminator, so an emitted
chunk can have length up to L + 1 (not L); apart from that slack, every
chunk either respects the bound or is the (stripped) copy of a single
sentence that is itself longer than L. -/
theorem C6_soft_limit_amended (text : Str) (L : Nat) (c : PyChunk)
    (hc : c ∈ split_into_chunks text L) :
    c.text.length ≤ L + 1 ∨
      ∃ s ∈ pySplit '.' text, c.text = pyStrip s ∧ L < s.length := by
  refine chunkLoop_soft_limit L (pySplit '.' text) (pySplit '.' text) [] []
    (fun t ht => ht) (Or.inl (by simp)) (fun x hx => absurd hx (List.not_mem_nil x)) c ?_
  simpa [split_into_chunks] using hc

/-- Claim C6 witness: on input "aaaa" with L = 2 the oversized chunk
"aaaa" is a single sentence longer than L, satisfying the exception. -/
theorem C6_witness :
    (⟨"aaaa".data, []⟩ : PyChunk) ∈ split_into_chunks ("aaaa".data) 2 ∧
    ((⟨"aaaa".data, []⟩ : PyChunk).text.length ≤ 2 + 1 ∨
      ∃ s ∈ pySplit '.' ("aaaa".data),
        (⟨"aaaa".data, []⟩ : PyChunk).text = pyStrip s ∧ 2 < s.length) :=
  ⟨by decide, C6_soft_limit_amended ("aaaa".data) 2 ⟨"aaaa".data, []⟩ (by decide)⟩

/-- Claim C6 counterexample: on input "aa.b." with L = 4 the single
emitted chunk "aa.b." has length 5 > 4, yet it is not the stripped copy of
any single sentence of the input (the sentences are "aa", "b" and the
empty trailing piece, all of length at most 4), so the claim as stated is
false. -/
theorem C6_counterexample :
    (split_into_chunks ("aa.b.".data) 4).map PyChunk.text = ["aa.b.".data] ∧
    ("aa.b.".data).length = 5 ∧
    (pySplit '.' ("aa.b.".data)).map pyStrip = ["aa".data, "b".data, []] ∧
    ((pySplit '.' ("aa.b.".data)).map pyStrip).contains ("aa.b.".data) = false := by
  refine ⟨by decide, by decide, by decide, by decide⟩

/-- Claim C8 (confirmed): when the vector search returns no candidates,
chat answers through the direct fallback generation call carrying the
generic assistant instruction and the raw query, with an empty citation
list; the result is the same for every database state, so no workspace
membership lookup and no assemble-and-generate step can influence it. -/
theorem C8_empty_search_direct_fallback (db : Database) (request : ChatRequest) :
    chat db [] request = (⟨fallback_system_prompt, request.query⟩, []) := rfl

/-- Claim C1, amended (corrected): when the vector search returns at least
one candidate and the workspace has at least one member document but the
workspace filter keeps zero candidates, chat does not fall back to the
generic instruction: it issues the grounded generation call, with the
context-based system instruction and the user query embedded in the
context template around an empty rendered context; the citation list is
empty. -/
theorem C1_empty_filter_grounded_call (db : Database) (vsr : List Candidate)
    (request : ChatRequest) (h1 : vsr ≠ [])
    (h2 : workspace_media_ids_in db request.workspace_id ≠ [])
    (h3 : workspaceFilter (workspace_media_ids_in db request.workspace_id) vsr = []) :
    chat db vsr request = (⟨system_prompt, user_prompt_of ("") request.query⟩, []) := by
  unfold chat
  rw [if_neg h1, if_neg h2]
  unfold top_chunks_of
  rw [h3]
  rfl

/-- Claim C1 witness: a concrete workspace with one member document and
one candidate owned by a different document reaches the grounded call with
empty context and empty citations. -/
theorem C1_witness :
    ([⟨"c1", "m2", "t", 1, none⟩] : List Candidate) ≠ [] ∧
    workspace_media_ids_in ⟨[], [], [⟨"m1", "w1"⟩], []⟩ "w1" ≠ [] ∧
    workspaceFilter (workspace_media_ids_in ⟨[], [], [⟨"m1", "w1"⟩], []⟩ "w1")
        [⟨"c1", "m2", "t", 1, none⟩] = [] ∧
    chat ⟨[], [], [⟨"m1", "w1"⟩], []⟩ [⟨"c1", "m2", "t", 1, none⟩]
        ⟨"what is x", "w1", none, some 10⟩ =
      (⟨system_prompt, user_prompt_of ("") "what is x"⟩, []) :=
  ⟨by decide, by decide, by decide,
    C1_empty_filter_grounded_call _ _ _ (by decide) (by decide) (by decide)⟩

/-- Claim C1 counterexample: in that concrete situation the generation
call does not use the generic assistant instruction and does not carry the
raw user query alone (the query is wrapped in the context template), so
the transition to FallbackGenerate asserted by the claim does not happen;
only the empty-citations part of the claim holds. -/
theorem C1_counterexample :
    (chat ⟨[], [], [⟨"m1", "w1"⟩], []⟩ [⟨"c1", "m2", "t", 1, none⟩]
        ⟨"what is x", "w1", none, some 10⟩).1.system ≠ fallback_system_prompt ∧
    (chat ⟨[], [], [⟨"m1", "w1"⟩], []⟩ [⟨"c1", "m2", "t", 1, none⟩]
        ⟨"what is x", "w1", none, some 10⟩).1.user ≠ "what is x" ∧
    (chat ⟨[], [], [⟨"m1", "w1"⟩], []⟩ [⟨"c1", "m2", "t", 1, none⟩]
        ⟨"what is x", "w1", none, some 10⟩).2 = [] := by
  refine ⟨by decide, by decide, rfl⟩

/-- Claim C2, amended (corrected): the citation list (and the block list
rendered from the same top chunks) has length min(10, number of filtered
candidates) — the literal 10 of the source, not the requested
max_context_chunks, which the route accepts but never reads, as the first
conjunct states. -/
theorem C2_max_context_chunks_ignored (db : Database) (vsr : List Candidate)
    (request : ChatRequest) (m1 m2 : Option Nat)
    (h1 : vsr ≠ [])
    (h2 : workspace_media_ids_in db request.workspace_id ≠ []) :
    chat db vsr { request with max_context_chunks := m1 } =
      chat db vsr { request with max_context_chunks := m2 } ∧
    (chat db vsr request).2.length =
      min 10 (workspaceFilter (workspace_media_ids_in db request.workspace_id) vsr).length := by
  refine ⟨rfl, ?_⟩
  unfold chat
  rw [if_neg h1, if_neg h2]
  simp only [top_chunks_of, List.length_map, List.length_take]
  omega

/-- Claim C2 witness: with two filtered candidates and the literal limit
10 the citation count is min 10 2 = 2. -/
theorem C2_witness :
    ([⟨"c1", "m1", "t1", 2, some ("Doc")⟩, ⟨"c2", "m1", "t2", 1, none⟩] : List Candidate) ≠ [] ∧
    workspace_media_ids_in ⟨[], [], [⟨"m1", "w1"⟩], []⟩ "w1" ≠ [] ∧
    (chat ⟨[], [], [⟨"m1", "w1"⟩], []⟩
        [⟨"c1", "m1", "t1", 2, some ("Doc")⟩, ⟨"c2", "m1", "t2", 1, none⟩]
        ⟨"q", "w1", none, some 1⟩).2.length =
      min 10 (workspaceFilter (workspace_media_ids_in ⟨[], [], [⟨"m1", "w1"⟩], []⟩ "w1")
        [⟨"c1", "m1", "t1", 2, some ("Doc")⟩, ⟨"c2", "m1", "t2", 1, none⟩]).length :=
  ⟨by decide, by decide,
    (C2_max_context_chunks_ignored _ _ _ (some 1) (some 5) (by decide) (by decide)).2⟩

/-- Claim C2 counterexample: a request with max_context_chunks = 1 and two
filtered candidates receives 2 citations, not min(1, 2) = 1, so the
claimed dependence on the request field is false. -/
theorem C2_counterexample :
    (chat ⟨[], [], [⟨"m1", "w1"⟩], []⟩
        [⟨"c1", "m1", "t1", 2, some ("Doc")⟩, ⟨"c2", "m1", "t2", 1, none⟩]
        ⟨"q", "w1", none, some 1⟩).2.length = 2 ∧
    ¬ ((chat ⟨[], [], [⟨"m1", "w1"⟩], []⟩
        [⟨"c1", "m1", "t1", 2, some ("Doc")⟩, ⟨"c2", "m1", "t2", 1, none⟩]
        ⟨"q", "w1", none, some 1⟩).2.length = 1) := by
  constructor <;> decide

/-- Claim C9 (confirmed): the workspace filtering step is idempotent — on
a candidate list whose members all belong to workspace media and which is
already sorted by non-increasing similarity, the membership filter keeps
everything and the stable descending re-sort returns the list unchanged. -/
theorem C9_workspaceFilter_idempotent (ids : List String) (cands : List Candidate)
    (h1 : ∀ c ∈ cands, ids.contains c.media_id = true)
    (h2 : cands.Pairwise (fun a b => b.similarity ≤ a.similarity)) :
    workspaceFilter ids cands = cands := by
  unfold workspaceFilter
  rw [List.filter_eq_self.mpr h1, pySortByDesc_sorted_eq_self _ _ h2]

/-- Claim C9 witness: a concrete already-filtered, already-sorted pair of
candidates passes through the filter unchanged. -/
theorem C9_witness :
    (∀ c ∈ ([⟨"c1", "m1", "t1", 2, none⟩, ⟨"c2", "m1", "t2", 1, none⟩] : List Candidate),
        (["m1"] : List String).contains c.media_id = true) ∧
    ([⟨"c1", "m1", "t1", 2, none⟩, ⟨"c2", "m1", "t2", 1, none⟩] : List Candidate).Pairwise
        (fun a b => b.similarity ≤ a.similarity) ∧
    workspaceFilter ["m1"] [⟨"c1", "m1", "t1", 2, none⟩, ⟨"c2", "m1", "t2", 1, none⟩] =
      [⟨"c1", "m1", "t1", 2, none⟩, ⟨"c2", "m1", "t2", 1, none⟩] :=
  ⟨by decide, by decide, C9_workspaceFilter_idempotent _ _ (by decide) (by decide)⟩

/-- Claim C3 (code_bug): a process-chunks request for a file absent from
storage, or for a file with no media record, is answered with a generic
500 failure, not a 404: the deliberately raised 404 HTTPException is
caught by the catch-all "except Exception" of the route and re-raised as
HTTPException(500, str(e)), the original 404 surviving only inside the
detail text. -/
theorem C3_not_found_surfaces_as_500 :
    process_chunks ⟨fun _ => ⟨none, ""⟩, fun _ => [], fun _ => some ("cid")⟩
        ⟨[], [], [], []⟩ ⟨"uploads/doc.pdf"⟩ =
      .error ⟨500, "404: Failed to download file: object not found"⟩ ∧
    process_chunks ⟨fun _ => ⟨none, ""⟩, fun _ => [], fun _ => some ("cid")⟩
        ⟨[("uploads/doc.pdf", "content")], [], [], []⟩ ⟨"uploads/doc.pdf"⟩ =
      .error ⟨500, "404: Media record not found"⟩ :=
  ⟨rfl, rfl⟩

/-- Claim C7 (code_bug): the background task registered by upload_file is
the unguarded background_process_chunks of app/routes/process_chunks.py,
so an error during chunk processing propagates to the task runner; the
guarded variant of app/utils/text_processing.py, whose comment documents
that a background task must fail gracefully, would swallow it, but it is
not the registered one. -/
theorem C7_background_task_error_escapes :
    background_process_chunks ⟨fun _ => ⟨none, ""⟩, fun _ => [], fun _ => some ("cid")⟩
        ⟨[], [], [], []⟩ "uploads/doc.pdf" =
      .error ⟨500, "404: Failed to download file: object not found"⟩ ∧
    background_process_chunks_graceful ⟨fun _ => ⟨none, ""⟩, fun _ => [], fun _ => some ("cid")⟩
        ⟨[], [], [], []⟩ "uploads/doc.pdf" = .ok () :=
  ⟨rfl, rfl⟩

/-- Claim C10 (confirmed): the ad hoc embedding search endpoint reads only
the chunks table — two stores that differ only in their
media_workspace_mapping rows yield identical search results for every
query, limit, threshold and similarity function, so the endpoint applies
no workspace scoping. -/
theorem C10_search_ignores_workspace_mapping (sim : List ℚ → List ℚ → ℚ)
    (query_embedding : List ℚ) (db : Database) (m1 m2 : List MWMRow) (q : SearchQuery) :
    search_embeddings sim query_embedding { db with media_workspace_mapping := m1 } q =
      search_embeddings sim query_embedding { db with media_workspace_mapping := m2 } q := rfl

end HarperChat
